import Mathlib

/-!
Shallow embedding of `leptos_config` (`src/leptos_config/src/lib.rs`):
the `RustEnv` environment classifier with its three conversions
(`FromStr`, `From<&str>`, `From<&Result<String, VarError>>`), the
`RenderOptions` value built by `typed_builder`, and the
`write_to_file` snapshot writer.

Modelling conventions:
- Rust `String`/`&str` are Lean `String`.
- `str::to_lowercase` is modelled as per-character ASCII lowering
  (`rustLowercase`); on the ASCII inputs the classifier distinguishes,
  this agrees with Rust's Unicode lowercasing.
- A Rust `panic!`/`expect` is modelled as an explicit `panicked`
  outcome (`Except.error` for the pure conversions): the operation
  does not produce a value.
- The filesystem is a map from paths to file contents; `fs::write`
  succeeds or fails according to an explicit `ioOk` flag supplied by
  the environment.
-/

/-- ASCII per-character lowering, the model of Rust `str::to_lowercase`
as used in `RustEnv`'s conversions (all recognized words are ASCII). -/
def asciiToLower (c : Char) : Char :=
  if 65 ≤ c.toNat ∧ c.toNat ≤ 90 then Char.ofNat (c.toNat + 32) else c

/-- Model of `input.to_lowercase()` from the source. -/
def rustLowercase (s : String) : String :=
  ⟨s.data.map asciiToLower⟩

/-- The environment enum from the source: `pub enum RustEnv { PROD, DEV }`. -/
inductive RustEnv where
  | PROD
  | DEV
deriving DecidableEq, Repr

/-- `impl Default for RustEnv`: `Self::PROD`. -/
def RustEnv.default : RustEnv := RustEnv.PROD

/-- Derived `Debug` formatting of `RustEnv` (`{:?}` prints the variant name). -/
def RustEnv.debugFmt : RustEnv → String
  | RustEnv.PROD => "PROD"
  | RustEnv.DEV => "DEV"

/-- `impl FromStr for RustEnv` (source lines 64-76): lower-case the input,
map the four recognized words, and return `Ok(PROD)` on anything else.
The error type is `()` and is never produced. -/
def RustEnv.from_str (input : String) : Except Unit RustEnv :=
  let sanitized := rustLowercase input
  if sanitized = "dev" then Except.ok RustEnv.DEV
  else if sanitized = "development" then Except.ok RustEnv.DEV
  else if sanitized = "prod" then Except.ok RustEnv.PROD
  else if sanitized = "production" then Except.ok RustEnv.PROD
  else Except.ok RustEnv.PROD

/-- The panic message of the `From<&str>` and `From<&Result<..>>` conversions. -/
def envPanicMsg : String :=
  "Environment var is not recognized. Maybe try `dev` or `prod`"

/-- `impl From<&str> for RustEnv` (source lines 78-91): lower-case the
input, map the four recognized words, and panic (modelled as
`Except.error`) on anything else. -/
def RustEnv.from_str_conv (s : String) : Except String RustEnv :=
  let sanitized := rustLowercase s
  if sanitized = "dev" then Except.ok RustEnv.DEV
  else if sanitized = "development" then Except.ok RustEnv.DEV
  else if sanitized = "prod" then Except.ok RustEnv.PROD
  else if sanitized = "production" then Except.ok RustEnv.PROD
  else Except.error envPanicMsg

/-- Model of `std::env::VarError`: `NotPresent` or `NotUnicode(OsString)`. -/
inductive VarError where
  | NotPresent
  | NotUnicode (raw : String)
deriving DecidableEq, Repr

/-- `impl From<&Result<String, VarError>> for RustEnv` (source lines 92-109):
on `Ok`, lower-case and map the four recognized words, panicking
(modelled as `Except.error`) on anything else; on `Err(_)`, `PROD`. -/
def RustEnv.from_var_result (input : Except VarError String) : Except String RustEnv :=
  match input with
  | Except.ok str =>
      let sanitized := rustLowercase str
      if sanitized = "dev" then Except.ok RustEnv.DEV
      else if sanitized = "development" then Except.ok RustEnv.DEV
      else if sanitized = "prod" then Except.ok RustEnv.PROD
      else if sanitized = "production" then Except.ok RustEnv.PROD
      else Except.error envPanicMsg
  | Except.error _ => Except.ok RustEnv.PROD

/-- Model of `std::net::SocketAddr` restricted to the V4 shape the source
constructs (`SocketAddr::from(([127,0,0,1], 3000))`). -/
structure SocketAddr where
  a : Nat
  b : Nat
  c : Nat
  d : Nat
  port : Nat
deriving DecidableEq, Repr

/-- `Debug` formatting of a V4 `SocketAddr`: `a.b.c.d:port`. -/
def SocketAddr.debugFmt (s : SocketAddr) : String :=
  toString s.a ++ "." ++ toString s.b ++ "." ++ toString s.c ++ "."
    ++ toString s.d ++ ":" ++ toString s.port

/-- The `RenderOptions` struct from the source: bundle path, environment,
bind address, reload port. -/
structure RenderOptions where
  pkg_path : String
  environment : RustEnv
  socket_address : SocketAddr
  reload_port : Nat
deriving DecidableEq, Repr

/-- The `typed_builder`-generated builder: `pkg_path` is required (no
default), `environment` defaults to `RustEnv::default()` (= `PROD`),
`socket_address` to `127.0.0.1:3000`, `reload_port` to `3001`.
`none` for an optional field means the corresponding setter was not
called before `build()`. -/
def RenderOptions.build (pkg_path : String) (environment : Option RustEnv)
    (socket_address : Option SocketAddr) (reload_port : Option Nat) :
    RenderOptions :=
  { pkg_path := pkg_path
    environment := environment.getD RustEnv.default
    socket_address := socket_address.getD ⟨127, 0, 0, 1, 3000⟩
    reload_port := reload_port.getD 3001 }

/-- The builder's `environment` setter is declared `#[builder(setter(into))]`
(source lines 15-18): a `&str` argument is converted with
`From<&str> for RustEnv` before being stored, so a string fed to the
common construction path goes through the panicking conversion. -/
def RenderOptions.environment_setter_conv (s : String) : Except String RustEnv :=
  RustEnv.from_str_conv s

/-- The text `write_to_file` formats (source lines 35-45), with Rust's
`format!` holes filled: `{}` with `pkg_path` (verbatim, no escaping),
`{:?}` with the `Debug` rendering of `environment`, `socket_address`
and `reload_port`. -/
def RenderOptions.format_options (o : RenderOptions) : String :=
  "// This file is auto-generated. Changing it will have no effect on leptos. Change these by changing RenderOptions and rerunning\n"
    ++ "RenderOptions \x7b\n"
    ++ "    pkg-path \"" ++ o.pkg_path ++ "\"\n"
    ++ "    environment \"" ++ o.environment.debugFmt ++ "\"\n"
    ++ "    socket-address \"" ++ o.socket_address.debugFmt ++ "\"\n"
    ++ "    reload-port " ++ toString o.reload_port ++ "\n"
    ++ "\x7d\n"

/-- The filesystem state: a map from paths to file contents. -/
def FileSystem := String → Option String

/-- The fixed path `write_to_file` writes to. -/
def leptosKdlPath : String := "./.leptos.kdl"

/-- The effect of a successful `fs::write("./.leptos.kdl", options)`:
the contents at that path are replaced, every other path is untouched. -/
def RenderOptions.write_fs (o : RenderOptions) (fs : FileSystem) : FileSystem :=
  fun path => if path = leptosKdlPath then some (o.format_options) else fs path

/-- The process state seen by `write_to_file`: the borrowed
`RenderOptions` value and the filesystem. -/
structure ProcState where
  opts : RenderOptions
  fs : FileSystem

/-- The outcome of `write_to_file`: normal return with the resulting
state, or a panic (the source's `.expect("Unable to write file")`). -/
inductive WriteResult where
  | ok (st : ProcState)
  | panicked (msg : String)

/-- `RenderOptions::write_to_file` (source lines 33-47): format the four
fields and `fs::write` the text to `./.leptos.kdl`; on an I/O failure
(`ioOk = false`: permissions, missing directory, disk full) the
`.expect` panics with "Unable to write file". The method takes `&self`
and returns `()`: the returned state carries the same options value. -/
def RenderOptions.write_to_file (st : ProcState) (ioOk : Bool) : WriteResult :=
  let options := st.opts.format_options
  if ioOk then
    WriteResult.ok ⟨st.opts, fun path =>
      if path = leptosKdlPath then some options else st.fs path⟩
  else
    WriteResult.panicked "Unable to write file"

/-- Membership of a lower-cased string in the recognized set. -/
def recognizedEnv (s : String) : Prop :=
  rustLowercase s = "dev" ∨ rustLowercase s = "development"
    ∨ rustLowercase s = "prod" ∨ rustLowercase s = "production"

instance (s : String) : Decidable (recognizedEnv s) := by
  unfold recognizedEnv
  infer_instance

/-- C1: for every case-insensitive spelling of "dev" or "development",
both the `FromStr` parsing path and the `From<&str>` conversion yield
`DEV`; for every case-insensitive spelling of "prod" or "production",
both yield `PROD`. -/
theorem c1_recognized_spellings (s : String) :
    ((rustLowercase s = "dev" ∨ rustLowercase s = "development") →
      RustEnv.from_str s = Except.ok RustEnv.DEV
        ∧ RustEnv.from_str_conv s = Except.ok RustEnv.DEV)
    ∧ ((rustLowercase s = "prod" ∨ rustLowercase s = "production") →
      RustEnv.from_str s = Except.ok RustEnv.PROD
        ∧ RustEnv.from_str_conv s = Except.ok RustEnv.PROD) := by
  constructor
  · rintro (h | h) <;>
      exact ⟨by simp [RustEnv.from_str, h], by simp [RustEnv.from_str_conv, h]⟩
  · rintro (h | h) <;>
      exact ⟨by simp [RustEnv.from_str, h], by simp [RustEnv.from_str_conv, h]⟩

/-- Witness for C1 at the concrete spellings "DEV" and "Production". -/
theorem c1_recognized_spellings_witness :
    (RustEnv.from_str "DEV" = Except.ok RustEnv.DEV
        ∧ RustEnv.from_str_conv "DEV" = Except.ok RustEnv.DEV)
    ∧ (RustEnv.from_str "Production" = Except.ok RustEnv.PROD
        ∧ RustEnv.from_str_conv "Production" = Except.ok RustEnv.PROD) :=
  ⟨(c1_recognized_spellings "DEV").1 (Or.inl rfl),
   (c1_recognized_spellings "Production").2 (Or.inr rfl)⟩

/-- C2: for every string outside the recognized set (in any casing) the
`FromStr` classifier yields `Ok(PROD)` — no error, no abort — and for a
failed environment-variable lookup (`Err`) the `From<&Result<..>>`
classifier yields `PROD` without failing. -/
theorem c2_unrecognized_defaults_to_prod (s : String) (h : ¬ recognizedEnv s)
    (e : VarError) :
    RustEnv.from_str s = Except.ok RustEnv.PROD
    ∧ RustEnv.from_var_result (Except.error e) = Except.ok RustEnv.PROD := by
  unfold recognizedEnv at h
  push_neg at h
  obtain ⟨h1, h2, h3, h4⟩ := h
  exact ⟨by simp [RustEnv.from_str, h1, h2, h3, h4],
    by simp [RustEnv.from_var_result]⟩

/-- Witness for C2 at the unrecognized string "staging" and the lookup
error `NotPresent`. -/
theorem c2_unrecognized_defaults_to_prod_witness :
    RustEnv.from_str "staging" = Except.ok RustEnv.PROD
    ∧ RustEnv.from_var_result (Except.error VarError.NotPresent)
        = Except.ok RustEnv.PROD :=
  c2_unrecognized_defaults_to_prod "staging" (by decide) VarError.NotPresent

/-- C3: the `From<&str>` conversion — the one reached from the builder's
`environment` setter (`setter(into)`) — treats every unrecognized
string as a fatal panic whose message suggests `dev` or `prod`, and
never defaults to `PROD` there. -/
theorem c3_from_str_conv_panics (s : String) (h : ¬ recognizedEnv s) :
    RenderOptions.environment_setter_conv s = Except.error envPanicMsg
    ∧ (∀ e : RustEnv, RustEnv.from_str_conv s ≠ Except.ok e)
    ∧ (∃ p q, envPanicMsg = p ++ "`dev`" ++ q)
    ∧ (∃ p q, envPanicMsg = p ++ "`prod`" ++ q) := by
  unfold recognizedEnv at h
  push_neg at h
  obtain ⟨h1, h2, h3, h4⟩ := h
  have hconv : RustEnv.from_str_conv s = Except.error envPanicMsg := by
    simp [RustEnv.from_str_conv, h1, h2, h3, h4]
  refine ⟨hconv, ?_, ?_, ?_⟩
  · intro e he
    rw [hconv] at he
    exact Except.noConfusion he
  · exact ⟨"Environment var is not recognized. Maybe try ", " or `prod`", rfl⟩
  · exact ⟨"Environment var is not recognized. Maybe try `dev` or ", "", rfl⟩

/-- Witness for C3 at the unrecognized string "staging". -/
theorem c3_from_str_conv_panics_witness :
    RenderOptions.environment_setter_conv "staging" = Except.error envPanicMsg :=
  (c3_from_str_conv_panics "staging" (by decide)).1

/-- C4: building with only the bundle path supplied yields
environment = `PROD`, socket address = 127.0.0.1:3000 (also under its
`Debug` rendering), and reload port = 3001, while the bundle path is
exactly the supplied value (it has no default: `build` requires it). -/
theorem c4_builder_defaults (p : String) :
    (RenderOptions.build p none none none).pkg_path = p
    ∧ (RenderOptions.build p none none none).environment = RustEnv.PROD
    ∧ (RenderOptions.build p none none none).socket_address
        = SocketAddr.mk 127 0 0 1 3000
    ∧ (RenderOptions.build p none none none).socket_address.debugFmt
        = "127.0.0.1:3000"
    ∧ (RenderOptions.build p none none none).reload_port = 3001 :=
  ⟨rfl, rfl, rfl,
    show SocketAddr.debugFmt ⟨127, 0, 0, 1, 3000⟩ = "127.0.0.1:3000" by decide,
    rfl⟩

/-- C5: the snapshot writer formats a header comment saying the file is
auto-generated and editing it has no effect, followed by the four
fields one per line in the order pkg-path, environment,
socket-address, reload-port, and overwrites `./.leptos.kdl` with that
text whatever the file held before, leaving every other path alone. -/
theorem c5_snapshot_format_and_overwrite (o : RenderOptions) (fs : FileSystem) :
    RenderOptions.write_to_file ⟨o, fs⟩ true
        = WriteResult.ok ⟨o, o.write_fs fs⟩
    ∧ o.write_fs fs leptosKdlPath = some o.format_options
    ∧ (∀ q, q ≠ leptosKdlPath → o.write_fs fs q = fs q)
    ∧ o.format_options
        = "// This file is auto-generated. Changing it will have no effect on leptos. Change these by changing RenderOptions and rerunning\n"
          ++ "RenderOptions \x7b\n"
          ++ "    pkg-path \"" ++ o.pkg_path ++ "\"\n"
          ++ "    environment \"" ++ o.environment.debugFmt ++ "\"\n"
          ++ "    socket-address \"" ++ o.socket_address.debugFmt ++ "\"\n"
          ++ "    reload-port " ++ toString o.reload_port ++ "\n"
          ++ "\x7d\n" := by
  refine ⟨rfl, by simp [RenderOptions.write_fs], ?_, rfl⟩
  intro q hq
  simp [RenderOptions.write_fs, hq]

/-- Witness for C5: the inner frame condition at a path other than
`./.leptos.kdl`, on a concrete options value over the empty filesystem. -/
theorem c5_snapshot_format_and_overwrite_witness :
    (RenderOptions.mk "/pkg/app" RustEnv.PROD (SocketAddr.mk 127 0 0 1 3000)
        3001).write_fs (fun _ => none) "Cargo.toml"
      = (fun _ => none : FileSystem) "Cargo.toml" :=
  (c5_snapshot_format_and_overwrite
    (RenderOptions.mk "/pkg/app" RustEnv.PROD (SocketAddr.mk 127 0 0 1 3000) 3001)
    (fun _ => none)).2.2.1 "Cargo.toml" (by decide)

/-- C6: the generated snapshot's pkg-path line is exactly four spaces,
`pkg-path`, a space, then the supplied bundle path enclosed in double
quotes: the path string is embedded verbatim, with no escaping applied
to any of its characters. -/
theorem c6_pkg_path_verbatim (o : RenderOptions) :
    ∃ pre post, o.format_options
      = pre ++ ("    pkg-path \"" ++ o.pkg_path ++ "\"\n") ++ post := by
  refine ⟨"// This file is auto-generated. Changing it will have no effect on leptos. Change these by changing RenderOptions and rerunning\n"
        ++ "RenderOptions \x7b\n",
    "    environment \"" ++ o.environment.debugFmt ++ "\"\n"
        ++ "    socket-address \"" ++ o.socket_address.debugFmt ++ "\"\n"
        ++ "    reload-port " ++ toString o.reload_port ++ "\n"
        ++ "\x7d\n", ?_⟩
  simp only [RenderOptions.format_options, String.append_assoc]

/-- C7: the snapshot writer is idempotent — writing twice with the same
options value succeeds both times, leaves the filesystem of the second
write equal to that of the first, and both writes put the same bytes
(the deterministic `format_options` text) at `./.leptos.kdl`. -/
theorem c7_write_idempotent (o : RenderOptions) (fs : FileSystem) :
    RenderOptions.write_to_file ⟨o, fs⟩ true
        = WriteResult.ok ⟨o, o.write_fs fs⟩
    ∧ RenderOptions.write_to_file ⟨o, o.write_fs fs⟩ true
        = WriteResult.ok ⟨o, o.write_fs (o.write_fs fs)⟩
    ∧ o.write_fs (o.write_fs fs) = o.write_fs fs
    ∧ o.write_fs fs leptosKdlPath = some o.format_options := by
  refine ⟨rfl, rfl, ?_, by simp [RenderOptions.write_fs]⟩
  funext q
  by_cases hq : q = leptosKdlPath <;> simp [RenderOptions.write_fs, hq]

/-- C8: when the underlying filesystem write fails, `write_to_file` never
reports success: it surfaces the failure as the panic
"Unable to write file" (the `.expect` message). -/
theorem c8_write_failure_surfaced (st : ProcState) :
    RenderOptions.write_to_file st false
        = WriteResult.panicked "Unable to write file"
    ∧ ∀ st2, RenderOptions.write_to_file st false ≠ WriteResult.ok st2 := by
  refine ⟨rfl, ?_⟩
  intro st2 h
  exact WriteResult.noConfusion h

/-- C9: `write_to_file` takes `&self`: whenever it returns normally, the
options value afterwards is the one it was given, every field
unchanged — there is no in-place mutation. -/
theorem c9_write_preserves_options (st : ProcState) (ioOk : Bool) :
    ∀ st2, RenderOptions.write_to_file st ioOk = WriteResult.ok st2 →
      st2.opts = st.opts
      ∧ st2.opts.pkg_path = st.opts.pkg_path
      ∧ st2.opts.environment = st.opts.environment
      ∧ st2.opts.socket_address = st.opts.socket_address
      ∧ st2.opts.reload_port = st.opts.reload_port := by
  intro st2 h
  unfold RenderOptions.write_to_file at h
  by_cases hio : ioOk
  · subst hio
    simp only [if_true] at h
    cases h
    exact ⟨rfl, rfl, rfl, rfl, rfl⟩
  · simp [hio] at h

/-- Witness for C9 on a concrete options value and the empty filesystem. -/
theorem c9_write_preserves_options_witness :
    (ProcState.mk
      (RenderOptions.mk "/pkg/app" RustEnv.DEV (SocketAddr.mk 127 0 0 1 3000) 3001)
      ((RenderOptions.mk "/pkg/app" RustEnv.DEV (SocketAddr.mk 127 0 0 1 3000)
          3001).write_fs (fun _ => none))).opts
      = RenderOptions.mk "/pkg/app" RustEnv.DEV (SocketAddr.mk 127 0 0 1 3000)
          3001 :=
  (c9_write_preserves_options
    ⟨RenderOptions.mk "/pkg/app" RustEnv.DEV (SocketAddr.mk 127 0 0 1 3000) 3001,
      fun _ => none⟩ true
    ⟨RenderOptions.mk "/pkg/app" RustEnv.DEV (SocketAddr.mk 127 0 0 1 3000) 3001,
      (RenderOptions.mk "/pkg/app" RustEnv.DEV (SocketAddr.mk 127 0 0 1 3000)
          3001).write_fs (fun _ => none)⟩ rfl).1

/-- C10: converting a succeeded lookup (`Ok`) holding an unrecognized
string panics with the message suggesting `dev` or `prod`; the
`From<&Result<..>>` conversion defaults to `PROD` only when the lookup
itself failed. -/
theorem c10_ok_unrecognized_panics (s : String) (h : ¬ recognizedEnv s) :
    RustEnv.from_var_result (Except.ok s) = Except.error envPanicMsg
    ∧ (∀ e : VarError,
        RustEnv.from_var_result (Except.error e) = Except.ok RustEnv.PROD) := by
  unfold recognizedEnv at h
  push_neg at h
  obtain ⟨h1, h2, h3, h4⟩ := h
  exact ⟨by simp [RustEnv.from_var_result, h1, h2, h3, h4],
    fun e => by simp [RustEnv.from_var_result]⟩

/-- Witness for C10 at the unrecognized string "staging". -/
theorem c10_ok_unrecognized_panics_witness :
    RustEnv.from_var_result (Except.ok "staging") = Except.error envPanicMsg :=
  (c10_ok_unrecognized_panics "staging" (by decide)).1
